import Mathlib

/-!
Verification development for the `TrianglesDataTextureDepthRenderer` of the
AEC-Hackathon-Wroclaw repository (file `src/unnamed/part_001`): a shallow
embedding of the renderer's shader source builders, its `drawLayer` draw
orchestration (modelled as an explicit trace of GL commands), and the
semantics of the decisive fragments of the generated vertex shader
(render-pass filter and backface-flip step), together with theorems settling
the specification claims.

Conventions: GPU floats are idealised as `ℚ` (for the renderer-side
uniform values) and as `ℝ` (for the in-shader geometric computations that
involve `normalize`).  Matrices are 4×4 with `mIJ` the entry in row `I`,
column `J`, acting on column points with homogeneous coordinate `w = 1`.
-/

/-- A 3-component vector of rationals (models a JS `vec3`). -/
structure Vec3 where
  x : ℚ
  y : ℚ
  z : ℚ
  deriving DecidableEq

/-- A 4-component vector of rationals (models a GLSL `vec4`). -/
structure Vec4 where
  x : ℚ
  y : ℚ
  z : ℚ
  w : ℚ
  deriving DecidableEq

/-- A 4×4 matrix of rationals; `mIJ` is row `I`, column `J`. -/
structure Mat4 where
  m00 : ℚ
  m01 : ℚ
  m02 : ℚ
  m03 : ℚ
  m10 : ℚ
  m11 : ℚ
  m12 : ℚ
  m13 : ℚ
  m20 : ℚ
  m21 : ℚ
  m22 : ℚ
  m23 : ℚ
  m30 : ℚ
  m31 : ℚ
  m32 : ℚ
  m33 : ℚ
  deriving DecidableEq

def Vec3.add (a b : Vec3) : Vec3 := ⟨a.x + b.x, a.y + b.y, a.z + b.z⟩

def Vec3.sub (a b : Vec3) : Vec3 := ⟨a.x - b.x, a.y - b.y, a.z - b.z⟩

def Vec3.scale (q : ℚ) (v : Vec3) : Vec3 := ⟨q * v.x, q * v.y, q * v.z⟩

instance : Add Vec3 := ⟨Vec3.add⟩

instance : Sub Vec3 := ⟨Vec3.sub⟩

/-- The zero vector `(0,0,0)`. -/
def vec3Zero : Vec3 := ⟨0, 0, 0⟩

/-- Row-times-column product of two 4×4 matrices. -/
def Mat4.mul (a b : Mat4) : Mat4 :=
  ⟨a.m00 * b.m00 + a.m01 * b.m10 + a.m02 * b.m20 + a.m03 * b.m30,
   a.m00 * b.m01 + a.m01 * b.m11 + a.m02 * b.m21 + a.m03 * b.m31,
   a.m00 * b.m02 + a.m01 * b.m12 + a.m02 * b.m22 + a.m03 * b.m32,
   a.m00 * b.m03 + a.m01 * b.m13 + a.m02 * b.m23 + a.m03 * b.m33,
   a.m10 * b.m00 + a.m11 * b.m10 + a.m12 * b.m20 + a.m13 * b.m30,
   a.m10 * b.m01 + a.m11 * b.m11 + a.m12 * b.m21 + a.m13 * b.m31,
   a.m10 * b.m02 + a.m11 * b.m12 + a.m12 * b.m22 + a.m13 * b.m32,
   a.m10 * b.m03 + a.m11 * b.m13 + a.m12 * b.m23 + a.m13 * b.m33,
   a.m20 * b.m00 + a.m21 * b.m10 + a.m22 * b.m20 + a.m23 * b.m30,
   a.m20 * b.m01 + a.m21 * b.m11 + a.m22 * b.m21 + a.m23 * b.m31,
   a.m20 * b.m02 + a.m21 * b.m12 + a.m22 * b.m22 + a.m23 * b.m32,
   a.m20 * b.m03 + a.m21 * b.m13 + a.m22 * b.m23 + a.m23 * b.m33,
   a.m30 * b.m00 + a.m31 * b.m10 + a.m32 * b.m20 + a.m33 * b.m30,
   a.m30 * b.m01 + a.m31 * b.m11 + a.m32 * b.m21 + a.m33 * b.m31,
   a.m30 * b.m02 + a.m31 * b.m12 + a.m32 * b.m22 + a.m33 * b.m32,
   a.m30 * b.m03 + a.m31 * b.m13 + a.m32 * b.m23 + a.m33 * b.m33⟩

/-- Apply a 4×4 matrix to a 3-point with homogeneous `w = 1`, dropping the
result's `w` component (the affine point transform used throughout). -/
def Mat4.applyPoint (m : Mat4) (v : Vec3) : Vec3 :=
  ⟨m.m00 * v.x + m.m01 * v.y + m.m02 * v.z + m.m03,
   m.m10 * v.x + m.m11 * v.y + m.m12 * v.z + m.m13,
   m.m20 * v.x + m.m21 * v.y + m.m22 * v.z + m.m23⟩

/-- The 4×4 translation matrix moving a point by `o`. -/
def translationMat (o : Vec3) : Mat4 :=
  ⟨1, 0, 0, o.x,
   0, 1, 0, o.y,
   0, 0, 1, o.z,
   0, 0, 0, 1⟩

/-- The identity matrix. -/
def mat4Identity : Mat4 := translationMat vec3Zero

/-- Modelled from the spec: `math.transformPoint3` (from the repository's
`math/math.js`, which is not part of the provided sources) — transforms a
3-point by a 4×4 matrix with implicit `w = 1`, the standard affine point
transform used to rotate a layer origin by the model's rotation matrix. -/
def transformPoint3 (m : Mat4) (p : Vec3) : Vec3 := m.applyPoint p

/-- Modelled from the spec: `createRTCViewMat` (from the repository's
`math/rtcCoords.js`, not part of the provided sources) — §4.4: given a
world-space view matrix and an RTC origin, produces "a view matrix
expressed relative to `origin + position` rather than absolute world
space", i.e. the matrix sending the RTC coordinates `p - origin` of a
world point `p` to the same view-space point the original view matrix
sends `p` to.  That matrix is `viewMat * T(origin)`. -/
def createRTCViewMat (viewMat : Mat4) (origin : Vec3) : Mat4 :=
  viewMat.mul (translationMat origin)

/-- Modelled from the spec: `getPlaneRTCPos` (from the repository's
`math/rtcCoords.js`, not part of the provided sources) — §2/§4.4:
"reposition a section-plane's reference point, given a world-space origin
offset".  The plane with unit direction `dir` and scalar offset `dist`
has world-space reference point `(-dist) • dir`; rebasing into the RTC
space anchored at `origin` subtracts `origin` from it. -/
def getPlaneRTCPos (dist : ℚ) (dir : Vec3) (origin : Vec3) : Vec3 :=
  (Vec3.scale (-dist) dir).sub origin

/-- A section plane as supplied by the scene collaborator: world position,
scalar plane offset and direction. -/
structure SectionPlane where
  pos : Vec3
  dist : ℚ
  dir : Vec3
  deriving DecidableEq

/-- The scene's section-planes state (`scene._sectionPlanesState`). -/
structure SectionPlanesState where
  sectionPlanes : List SectionPlane
  deriving DecidableEq

/-- Modelled from the spec: `SectionPlanesState.getHash` (the section-planes
state lives outside the provided sources; only its hash is consumed by
`_getHash`).  Per §1 the configuration hash keys on the "section-plane
count": two states with the same number of planes hash equally, so the hash
is modelled as the plane count. -/
def SectionPlanesState.getHash (s : SectionPlanesState) : Nat :=
  s.sectionPlanes.length

/-- The scene-configuration snapshot consumed by the renderer: section-planes
state, logarithmic-depth enablement (and the viewer's platform-support flag),
entity-offset enablement, plus the per-frame camera state (view matrix, eye,
projection matrix). -/
structure Scene where
  _sectionPlanesState : SectionPlanesState
  logarithmicDepthBufferEnabled : Bool
  logarithmicDepthBufferSupported : Bool
  entityOffsetsEnabled : Bool
  viewMatrix : Mat4
  eye : Vec3
  projMatrix : Mat4
  deriving DecidableEq

/-- `_getHash` of the renderer: returns the section-planes-state hash
(and nothing else — lines 26–28 of the source). -/
def _getHash (scene : Scene) : Nat :=
  scene._sectionPlanesState.getHash

/-- Per-plane uniform declarations emitted by the fragment builder's
clipping block, indices `0..len-1` in order (source lines 419–423). -/
def sectionPlaneUniformDecls (len : Nat) : List String :=
  (List.range len).flatMap fun i =>
    ["uniform bool sectionPlaneActive" ++ (toString i ++ ";"),
     "uniform vec3 sectionPlanePos" ++ (toString i ++ ";"),
     "uniform vec3 sectionPlaneDir" ++ (toString i ++ ";")]

/-- Per-plane clipping statements emitted inside the fragment `main`
(source lines 431–435). -/
def sectionPlaneFragClipStmts (len : Nat) : List String :=
  (List.range len).flatMap fun i =>
    ["if (sectionPlaneActive" ++ (toString i ++ ") \x7b"),
     "   dist += clamp(dot(-sectionPlaneDir" ++
       (toString i ++ (".xyz, vWorldPosition.xyz - sectionPlanePos" ++
         (toString i ++ ".xyz), 0.0, 1000.0);"))),
     "\x7d"]

/-- The logarithmic-depth formula line emitted by the fragment builder
(source line 443). -/
def fragDepthLine : String :=
  "    gl_FragDepth = isPerspective == 0.0 ? gl_FragCoord.z : log2( vFragDepth ) * logDepthBufFC * 0.5;"

/-- Vertex builder: unconditional prologue (source lines 236–253). -/
def vtxPrologue : List String :=
  ["#version 300 es",
   "// Triangles dataTexture draw vertex shader",
   "#ifdef GL_FRAGMENT_PRECISION_HIGH",
   "precision highp float;",
   "precision highp int;",
   "precision highp usampler2D;",
   "precision highp isampler2D;",
   "precision highp sampler2D;",
   "#else",
   "precision mediump float;",
   "precision mediump int;",
   "precision mediump usampler2D;",
   "precision mediump isampler2D;",
   "precision mediump sampler2D;",
   "#endif",
   "uniform int renderPass;"]

/-- Vertex builder: uniform and sampler declarations (source lines 259–271). -/
def vtxDecls : List String :=
  ["uniform mat4 sceneModelMatrix;",
   "uniform mat4 viewMatrix;",
   "uniform mat4 projMatrix;",
   "uniform highp sampler2D uObjectPerObjectPositionsDecodeMatrix;",
   "uniform highp sampler2D uTexturePerObjectMatrix;",
   "uniform lowp usampler2D uObjectPerObjectColorsAndFlags;",
   "uniform mediump usampler2D uTexturePerVertexIdCoordinates;",
   "uniform highp usampler2D uTexturePerPolygonIdIndices;",
   "uniform mediump usampler2D uTexturePerPolygonIdPortionIds;",
   "uniform vec3 uCameraEyeRtc;",
   "vec3 positions[3];"]

/-- Vertex builder: logarithmic-depth declarations (source lines 273–277). -/
def vtxLogDecls : List String :=
  ["uniform float logDepthBufFC;",
   "out float vFragDepth;",
   "out float isPerspective;"]

/-- Vertex builder: helper function and high-precision varying (source lines
279–283). -/
def vtxHelpers : List String :=
  ["bool isPerspectiveMatrix(mat4 m) \x7b",
   "    return (m[2][3] == - 1.0);",
   "\x7d",
   "out highp vec2 vHighPrecisionZW;"]

/-- Vertex builder: clipping varyings (source lines 285–288). -/
def vtxClipDecls : List String :=
  ["out vec4 vWorldPosition;",
   "flat out uint vFlags2;"]

/-- Vertex builder: the main body through `clipPos` (source lines 290–375). -/
def vtxMain : List String :=
  ["void main(void) \x7b",
   "int polygonIndex = gl_VertexID / 3;",
   "int h_packed_object_id_index = (polygonIndex >> 3) & 4095;",
   "int v_packed_object_id_index = (polygonIndex >> 3) >> 12;",
   "int objectIndex = int(texelFetch(uTexturePerPolygonIdPortionIds, ivec2(h_packed_object_id_index, v_packed_object_id_index), 0).r);",
   "ivec2 objectIndexCoords = ivec2(objectIndex % 512, objectIndex / 512);",
   "uvec4 flags = texelFetch (uObjectPerObjectColorsAndFlags, ivec2(objectIndexCoords.x*8+2, objectIndexCoords.y), 0);",
   "uvec4 flags2 = texelFetch (uObjectPerObjectColorsAndFlags, ivec2(objectIndexCoords.x*8+3, objectIndexCoords.y), 0);",
   "if (int(flags.x) != renderPass) \x7b",
   "   gl_Position = vec4(3.0, 3.0, 3.0, 1.0);",
   "   return;",
   "\x7d else \x7b",
   "ivec4 packedVertexBase = ivec4(texelFetch (uObjectPerObjectColorsAndFlags, ivec2(objectIndexCoords.x*8+4, objectIndexCoords.y), 0));",
   "ivec4 packedIndexBaseOffset = ivec4(texelFetch (uObjectPerObjectColorsAndFlags, ivec2(objectIndexCoords.x*8+5, objectIndexCoords.y), 0));",
   "int indexBaseOffset = (packedIndexBaseOffset.r << 24) + (packedIndexBaseOffset.g << 16) + (packedIndexBaseOffset.b << 8) + packedIndexBaseOffset.a;",
   "int h_index = (polygonIndex - indexBaseOffset) & 4095;",
   "int v_index = (polygonIndex - indexBaseOffset) >> 12;",
   "ivec3 vertexIndices = ivec3(texelFetch(uTexturePerPolygonIdIndices, ivec2(h_index, v_index), 0));",
   "ivec3 uniqueVertexIndexes = vertexIndices + (packedVertexBase.r << 24) + (packedVertexBase.g << 16) + (packedVertexBase.b << 8) + packedVertexBase.a;",
   "ivec3 indexPositionH = uniqueVertexIndexes & 4095;",
   "ivec3 indexPositionV = uniqueVertexIndexes >> 12;",
   "mat4 objectInstanceMatrix = mat4 (texelFetch (uTexturePerObjectMatrix, ivec2(objectIndexCoords.x*4+0, objectIndexCoords.y), 0), texelFetch (uTexturePerObjectMatrix, ivec2(objectIndexCoords.x*4+1, objectIndexCoords.y), 0), texelFetch (uTexturePerObjectMatrix, ivec2(objectIndexCoords.x*4+2, objectIndexCoords.y), 0), texelFetch (uTexturePerObjectMatrix, ivec2(objectIndexCoords.x*4+3, objectIndexCoords.y), 0));",
   "mat4 objectDecodeAndInstanceMatrix = objectInstanceMatrix * mat4 (texelFetch (uObjectPerObjectPositionsDecodeMatrix, ivec2(objectIndexCoords.x*4+0, objectIndexCoords.y), 0), texelFetch (uObjectPerObjectPositionsDecodeMatrix, ivec2(objectIndexCoords.x*4+1, objectIndexCoords.y), 0), texelFetch (uObjectPerObjectPositionsDecodeMatrix, ivec2(objectIndexCoords.x*4+2, objectIndexCoords.y), 0), texelFetch (uObjectPerObjectPositionsDecodeMatrix, ivec2(objectIndexCoords.x*4+3, objectIndexCoords.y), 0));",
   "uint solid = texelFetch (uObjectPerObjectColorsAndFlags, ivec2(objectIndexCoords.x*8+7, objectIndexCoords.y), 0).r;",
   "positions[0] = vec3(texelFetch(uTexturePerVertexIdCoordinates, ivec2(indexPositionH.r, indexPositionV.r), 0));",
   "positions[1] = vec3(texelFetch(uTexturePerVertexIdCoordinates, ivec2(indexPositionH.g, indexPositionV.g), 0));",
   "positions[2] = vec3(texelFetch(uTexturePerVertexIdCoordinates, ivec2(indexPositionH.b, indexPositionV.b), 0));",
   "uvec4 color = texelFetch (uObjectPerObjectColorsAndFlags, ivec2(objectIndexCoords.x*8+0, objectIndexCoords.y), 0);",
   "if (color.a == 0u) \x7b",
   "   gl_Position = vec4(3.0, 3.0, 3.0, 1.0);",
   "   return;",
   "\x7d;",
   "vec3 normal = normalize(cross(positions[2] - positions[0], positions[1] - positions[0]));",
   "vec3 position;",
   "position = positions[gl_VertexID % 3];",
   "vec3 viewNormal = -normalize((transpose(inverse(viewMatrix*objectDecodeAndInstanceMatrix)) * vec4(normal,1)).xyz);",
   "if (solid != 1u) \x7b",
   "if (isPerspectiveMatrix(projMatrix)) \x7b",
   "vec3 uCameraEyeRtcInQuantizedSpace = (inverse(sceneModelMatrix * objectDecodeAndInstanceMatrix) * vec4(uCameraEyeRtc, 1)).xyz;",
   "if (dot(position.xyz - uCameraEyeRtcInQuantizedSpace, normal) < 0.0) \x7b",
   "position = positions[2 - (gl_VertexID % 3)];",
   "viewNormal = -viewNormal;",
   "\x7d",
   "\x7d else \x7b",
   "if (viewNormal.z < 0.0) \x7b",
   "position = positions[2 - (gl_VertexID % 3)];",
   "viewNormal = -viewNormal;",
   "\x7d",
   "\x7d",
   "\x7d",
   "vec4 worldPosition = sceneModelMatrix * (objectDecodeAndInstanceMatrix * vec4(position, 1.0)); ",
   "vec4 viewPosition = viewMatrix * worldPosition; ",
   "vec4 clipPos = projMatrix * viewPosition;"]

/-- Vertex builder: logarithmic-depth varying assignments (source lines
376–379). -/
def vtxLogAssigns : List String :=
  ["vFragDepth = 1.0 + clipPos.w;",
   "isPerspective = float (isPerspectiveMatrix(projMatrix));"]

/-- Vertex builder: clipping varying assignments (source lines 380–383). -/
def vtxClipAssigns : List String :=
  ["vWorldPosition = worldPosition;",
   "vFlags2 = flags2.r;"]

/-- Vertex builder: epilogue (source lines 384–388). -/
def vtxEpilogue : List String :=
  ["gl_Position = clipPos;",
   "vHighPrecisionZW = gl_Position.zw;",
   "\x7d",
   "\x7d"]

/-- `_buildVertexShader` (source lines 229–391): deterministically emits the
ordered vertex-stage source lines from the configuration snapshot, in
source order: prologue, optional `offset` attribute (entity offsets),
declarations, optional logarithmic-depth declarations, helpers, optional
clipping varyings, main body, optional logarithmic-depth assignments,
optional clipping assignments, epilogue. -/
def _buildVertexShader (scene : Scene) : List String :=
  vtxPrologue ++
  (if scene.entityOffsetsEnabled then ["in vec3 offset;"] else []) ++
  vtxDecls ++
  (if scene.logarithmicDepthBufferEnabled then vtxLogDecls else []) ++
  vtxHelpers ++
  (if 0 < scene._sectionPlanesState.sectionPlanes.length then vtxClipDecls else []) ++
  vtxMain ++
  (if scene.logarithmicDepthBufferEnabled then vtxLogAssigns else []) ++
  (if 0 < scene._sectionPlanesState.sectionPlanes.length then vtxClipAssigns else []) ++
  vtxEpilogue

/-- Fragment builder: unconditional prologue (source lines 398–409). -/
def frgPrologue : List String :=
  ["#version 300 es",
   "// Triangles dataTexture draw fragment shader",
   "#ifdef GL_FRAGMENT_PRECISION_HIGH",
   "precision highp float;",
   "precision highp int;",
   "#else",
   "precision mediump float;",
   "precision mediump int;",
   "#endif",
   "in highp vec2 vHighPrecisionZW;",
   "out vec4 outColor;"]

/-- Fragment builder: logarithmic-depth declarations (source lines 411–415). -/
def frgLogDecls : List String :=
  ["in float isPerspective;",
   "uniform float logDepthBufFC;",
   "in float vFragDepth;"]

/-- Fragment builder: clipping varyings and per-plane uniforms (source lines
416–424). -/
def frgClipDecls (len : Nat) : List String :=
  ["in vec4 vWorldPosition;",
   "flat in uint vFlags2;"] ++
  sectionPlaneUniformDecls len

/-- Fragment builder: clipping test inside `main` (source lines 427–440). -/
def frgClipMain (len : Nat) : List String :=
  ["  bool clippable = vFlags2 > 0u;",
   "  if (clippable) \x7b",
   "  float dist = 0.0;"] ++
  sectionPlaneFragClipStmts len ++
  ["  if (dist > 0.0) \x7b ",
   "      discard;",
   "  \x7d",
   "\x7d"]

/-- Fragment builder: epilogue (source lines 446–448). -/
def frgEpilogue : List String :=
  ["float fragCoordZ = 0.5 * vHighPrecisionZW[0] / vHighPrecisionZW[1] + 0.5;",
   "    outColor = vec4(vec3(1.0 - fragCoordZ), 1.0); ",
   "\x7d"]

/-- `_buildFragmentShader` (source lines 393–450): deterministically emits
the ordered fragment-stage source lines from the configuration snapshot, in
source order: prologue, optional logarithmic-depth declarations, optional
clipping declarations, `main` opener, optional clipping test, optional
logarithmic-depth formula, epilogue. -/
def _buildFragmentShader (scene : Scene) : List String :=
  frgPrologue ++
  (if scene.logarithmicDepthBufferEnabled then frgLogDecls else []) ++
  (if 0 < scene._sectionPlanesState.sectionPlanes.length then
    frgClipDecls scene._sectionPlanesState.sectionPlanes.length else []) ++
  ["void main(void) \x7b"] ++
  (if 0 < scene._sectionPlanesState.sectionPlanes.length then
    frgClipMain scene._sectionPlanesState.sectionPlanes.length else []) ++
  (if scene.logarithmicDepthBufferEnabled then [fragDepthLine] else []) ++
  frgEpilogue

/-- `_buildShader` (source lines 222–227): the pair of stage sources. -/
def _buildShader (scene : Scene) : List String × List String :=
  (_buildVertexShader scene, _buildFragmentShader scene)

/-- The compiled-program record owned by a renderer: its GPU identity and
whether compilation produced errors (`Program.errors`). -/
structure ProgramRec where
  id : Nat
  errors : Bool
  deriving DecidableEq

/-- The renderer instance's mutable state: the owned program (if any), the
recorded error flag (`this.errors`, never cleared), and the length of the
`_uSectionPlanes` uniform-location table built by `_allocate`. -/
structure RendererState where
  _program : Option ProgramRec
  errors : Bool
  uSectionPlanesLen : Nat
  deriving DecidableEq

/-- `_allocate` (source lines 162–203): compiles a program from the built
shader.  On failure the freshly created (erroneous) program object is still
stored in `this._program` and `this.errors` is set; the uniform tables are
only (re)built on success.  The compile outcome and the new program's GPU
identity are parameters of the model (they are determined by the GL
driver). -/
def _allocate (compileOk : Bool) (newId : Nat) (scene : Scene)
    (r : RendererState) : RendererState :=
  if compileOk then
    { _program := some { id := newId, errors := false },
      errors := r.errors,
      uSectionPlanesLen := scene._sectionPlanesState.sectionPlanes.length }
  else
    { _program := some { id := newId, errors := true },
      errors := true,
      uSectionPlanesLen := r.uSectionPlanesLen }

/-- The per-layer render flags (`model.renderFlags`): the flat bit array
`sectionPlanesActivePerLayer`, indexed by `layerIndex * planeCount +
planeIndex` (absent entries read as unset, matching JS `undefined`). -/
structure RenderFlags where
  sectionPlanesActivePerLayer : List Bool
  deriving DecidableEq

/-- The layer's model transform state. -/
structure Model where
  position : Vec3
  rotationMatrix : Mat4
  rotationMatrixConjugate : Mat4
  renderFlags : RenderFlags
  deriving DecidableEq

/-- The layer's own state (`dataTextureLayer._state`): RTC origin and the
per-index-width bucket counts. -/
structure LayerState where
  origin : Vec3
  numIndices8Bits : Nat
  numIndices16Bits : Nat
  numIndices32Bits : Nat
  deriving DecidableEq

/-- The data-texture layer passed to `drawLayer`. -/
structure DataTextureLayer where
  model : Model
  _state : LayerState
  layerIndex : Nat
  deriving DecidableEq

/-- The frame context shared across renderers: the last-bound program
identity (`null` at frame start) and the diagnostic draw counter. -/
structure FrameCtx where
  lastProgramId : Option Nat
  drawElements : Nat
  deriving DecidableEq

/-- An observable GL command issued by `drawLayer`: program bind, texture
binds, uniform uploads and draw invocations.  Section-plane uniforms are
identified by their plane index (the `_uSectionPlanes[i]` location record);
the value of the float uniform `logDepthBufFC` involves a transcendental
logarithm and is not modelled. -/
inductive GLAction where
  | bindProgram (id : Nat)
  | uniformMatrix4fv (name : String) (value : Mat4)
  | uniform1f (name : String)
  | uniform1i (name : String) (value : Int)
  | uniform3fv (name : String) (value : Vec3)
  | uniformSectionActive (planeIndex : Nat) (value : Int)
  | uniformSectionPos (planeIndex : Nat) (value : Vec3)
  | uniformSectionDir (planeIndex : Nat) (value : Vec3)
  | bindCommonTextures
  | bindTriangleIndicesTextures (bits : Nat)
  | drawArrays (count : Nat)
  deriving DecidableEq

/-- `_bindProgram` (source lines 205–220): binds the program and uploads the
projection matrix, plus `logDepthBufFC` when logarithmic depth is on. -/
def _bindProgram (scene : Scene) (progId : Nat) : List GLAction :=
  [GLAction.bindProgram progId,
   GLAction.uniformMatrix4fv "projMatrix" scene.projMatrix] ++
  (if scene.logarithmicDepthBufferEnabled then
    [GLAction.uniform1f "logDepthBufFC"] else [])

/-- The RTC rebasing step of `drawLayer` (source lines 61–89): when either
the layer origin or the model position is non-zero, the origin is rotated by
the model's rotation matrix (when the origin itself is non-zero), the model
position added, and the view matrix and camera eye rebased; otherwise the
camera's view matrix and eye are used unmodified. -/
def computeRTC (viewMatrix : Mat4) (eye : Vec3) (rotationMatrix : Mat4)
    (origin position : Vec3) : Mat4 × Vec3 :=
  if origin ≠ vec3Zero ∨ position ≠ vec3Zero then
    let rtcOrigin :=
      (if origin ≠ vec3Zero then transformPoint3 rotationMatrix origin
       else vec3Zero) + position
    (createRTCViewMat viewMatrix rtcOrigin, eye - rtcOrigin)
  else
    (viewMatrix, eye)

/-- The section-plane uniform-upload loop of `drawLayer` (source lines
102–124).  For each plane index below the scene's live plane count: when the
`_uSectionPlanes` table (of length `uLen`, fixed at allocation) has an entry,
the per-layer active bit is uploaded as the `active` boolean; position and
direction are uploaded only when the bit is set.  The JS truthiness test
`if (origin)` on the layer's origin array is always true (the array is
dereferenced unconditionally earlier in `drawLayer`), so the world-space
`sectionPlane.pos` branch is unreachable and the uploaded position is always
`getPlaneRTCPos(dist, dir, origin)` with the layer's stored origin. -/
def sectionPlaneActions (scene : Scene) (layer : DataTextureLayer)
    (uLen : Nat) : List GLAction :=
  let numSectionPlanes := scene._sectionPlanesState.sectionPlanes.length
  if 0 < numSectionPlanes then
    let baseIndex := layer.layerIndex * numSectionPlanes
    (List.range numSectionPlanes).flatMap fun sectionPlaneIndex =>
      if sectionPlaneIndex < uLen then
        let active := layer.model.renderFlags.sectionPlanesActivePerLayer.getD
          (baseIndex + sectionPlaneIndex) false
        let sectionPlane := scene._sectionPlanesState.sectionPlanes.getD
          sectionPlaneIndex ⟨vec3Zero, 0, vec3Zero⟩
        [GLAction.uniformSectionActive sectionPlaneIndex (if active then 1 else 0)] ++
        (if active then
          [GLAction.uniformSectionPos sectionPlaneIndex
            (getPlaneRTCPos sectionPlane.dist sectionPlane.dir layer._state.origin),
           GLAction.uniformSectionDir sectionPlaneIndex sectionPlane.dir]
         else [])
      else []
  else []

/-- The index-bucket draw dispatch of `drawLayer` (source lines 126–157):
for each bucket (8-, 16-, 32-bit, in that order) with a positive recorded
count, bind the bucket's index textures and issue one draw covering exactly
that count. -/
def bucketActions (state : LayerState) : List GLAction :=
  (if 0 < state.numIndices8Bits then
    [GLAction.bindTriangleIndicesTextures 8,
     GLAction.drawArrays state.numIndices8Bits] else []) ++
  (if 0 < state.numIndices16Bits then
    [GLAction.bindTriangleIndicesTextures 16,
     GLAction.drawArrays state.numIndices16Bits] else []) ++
  (if 0 < state.numIndices32Bits then
    [GLAction.bindTriangleIndicesTextures 32,
     GLAction.drawArrays state.numIndices32Bits] else []) 

/-- The body of `drawLayer` past the missing-program guard (source lines
48–160), given the renderer's (present) program `p`: conditional program
bind, common texture binds, uniform uploads, section-plane uploads, bucket
draws, and the final `frameCtx.drawElements++`. -/
def drawLayerBody (scene : Scene) (r : RendererState) (p : ProgramRec)
    (fc : FrameCtx) (layer : DataTextureLayer) (renderPass : Int) :
    RendererState × FrameCtx × List GLAction :=
  let model := layer.model
  let state := layer._state
  let needBind := fc.lastProgramId ≠ some p.id
  let fc1 := if needBind then { fc with lastProgramId := some p.id } else fc
  let bindActs := if needBind then _bindProgram scene p.id else []
  let rtc := computeRTC scene.viewMatrix scene.eye model.rotationMatrix
    state.origin model.position
  let uniformActs :=
    [GLAction.uniformMatrix4fv "sceneModelMatrix" model.rotationMatrixConjugate,
     GLAction.uniformMatrix4fv "viewMatrix" rtc.1,
     GLAction.uniformMatrix4fv "projMatrix" scene.projMatrix,
     GLAction.uniform3fv "uCameraEyeRtc" rtc.2,
     GLAction.uniform1i "renderPass" renderPass] ++
    (if scene.logarithmicDepthBufferEnabled then
      [GLAction.uniform1f "logDepthBufFC"] else [])
  (r,
   { fc1 with drawElements := fc1.drawElements + 1 },
   bindActs ++ [GLAction.bindCommonTextures] ++ uniformActs ++
     sectionPlaneActions scene layer r.uSectionPlanesLen ++
     bucketActions state)

/-- `drawLayer` (source lines 30–160).  The guard (lines 41–46): only when
`this._program` is absent is `_allocate` attempted, and only then is
`this.errors` consulted — a call that finds a stored program object (even an
erroneous one) proceeds to the body.  Returns the renderer state, the frame
context and the trace of issued GL commands. -/
def drawLayer (compileOk : Bool) (newId : Nat) (scene : Scene)
    (r : RendererState) (fc : FrameCtx) (layer : DataTextureLayer)
    (renderPass : Int) : RendererState × FrameCtx × List GLAction :=
  match r._program with
  | none =>
    let r1 := _allocate compileOk newId scene r
    if r1.errors = true then (r1, fc, [])
    else
      match r1._program with
      | some p => drawLayerBody scene r1 p fc layer renderPass
      | none => (r1, fc, [])
  | some p => drawLayerBody scene r p fc layer renderPass

/-- The draw-invocation counts recorded in a trace, in issue order. -/
def drawArraysCounts (l : List GLAction) : List Nat :=
  l.filterMap fun a =>
    match a with
    | GLAction.drawArrays n => some n
    | _ => none

/-- The number of program binds in a trace. -/
def bindCount (l : List GLAction) : Nat :=
  (l.filter fun a =>
    match a with
    | GLAction.bindProgram _ => true
    | _ => false).length

/-- GLSL `int(...)` reinterpretation of an unsigned 32-bit value as a signed
32-bit integer (two's complement). -/
def int32OfUInt (n : Nat) : Int :=
  let m := n % 4294967296
  if m < 2147483648 then (m : Int) else (m : Int) - 4294967296

/-- Outcome of the generated vertex stage's render-pass filter: either the
vertex is culled with the written `gl_Position`, or processing continues. -/
inductive PassFilterResult where
  | culled (glPosition : Vec4)
  | accepted
  deriving DecidableEq

/-- The render-pass filter of the generated vertex stage (emitted source
lines `if (int(flags.x) != renderPass) { gl_Position = vec4(3.0, 3.0, 3.0,
1.0); return; } else { ... }`, builder lines 309–312): compares the object's
packed `flags.x` (reinterpreted as a signed int) against the `renderPass`
uniform. -/
def vertexPassFilter (flagsx : Nat) (renderPass : Int) : PassFilterResult :=
  if int32OfUInt flagsx ≠ renderPass then
    PassFilterResult.culled ⟨3, 3, 3, 1⟩
  else
    PassFilterResult.accepted

/-- A clip-space position lies outside the canonical clip volume when some
coordinate falls outside `[-w, w]`. -/
def outsideClipVolume (p : Vec4) : Prop :=
  p.x < -p.w ∨ p.w < p.x ∨ p.y < -p.w ∨ p.w < p.y ∨ p.z < -p.w ∨ p.w < p.z

instance (p : Vec4) : Decidable (outsideClipVolume p) := by
  unfold outsideClipVolume
  infer_instance

/-- A 3-component vector of reals, for the in-shader geometric computations
of the generated vertex stage. -/
structure RVec3 where
  x : ℝ
  y : ℝ
  z : ℝ

def RVec3.sub (a b : RVec3) : RVec3 := ⟨a.x - b.x, a.y - b.y, a.z - b.z⟩

def RVec3.neg (a : RVec3) : RVec3 := ⟨-a.x, -a.y, -a.z⟩

instance : Sub RVec3 := ⟨RVec3.sub⟩

instance : Neg RVec3 := ⟨RVec3.neg⟩

/-- GLSL `dot` on 3-vectors. -/
def rdot (a b : RVec3) : ℝ := a.x * b.x + a.y * b.y + a.z * b.z

/-- GLSL `cross`. -/
def rcross (a b : RVec3) : RVec3 :=
  ⟨a.y * b.z - a.z * b.y, a.z * b.x - a.x * b.z, a.x * b.y - a.y * b.x⟩

/-- GLSL `normalize`: the vector divided by its Euclidean length. -/
noncomputable def rnormalize (v : RVec3) : RVec3 :=
  let len := Real.sqrt (rdot v v)
  ⟨v.x / len, v.y / len, v.z / len⟩

/-- The backface-determination step of the generated vertex stage (emitted
source from builder lines 349–370).  Inputs are the fetched triangle corner
positions in quantized object space, the object's `solid` flag word,
`gl_VertexID`, whether the projection matrix is a perspective one, the
camera eye transformed into quantized object space
(`uCameraEyeRtcInQuantizedSpace`, computed in the emitted source by an
inverse model-matrix transform of `uCameraEyeRtc`), and the incoming view
normal (computed in the emitted source at builder line 354 from the view and
decode matrices).  The face normal is `normalize(cross(p2 - p0, p1 - p0))`
computed before the flip; for non-solid geometry (`solid != 1u`) the winding
is flipped (`positions[2 - (gl_VertexID % 3)]`) and the view normal negated
when, under perspective projection, the eye-to-vertex vector dotted with the
normal is negative, or, under orthographic projection, the view normal's `z`
is negative.  Returns the vertex position selected for final assembly and
the resulting view normal. -/
noncomputable def backfaceFlipStep (solid : Nat) (projIsPerspective : Bool)
    (positions : Fin 3 → RVec3) (glVertexID : Nat)
    (uCameraEyeRtcInQuantizedSpace : RVec3) (viewNormalIn : RVec3) :
    RVec3 × RVec3 :=
  let normal := rnormalize (rcross (positions 2 - positions 0) (positions 1 - positions 0))
  let position := positions ⟨glVertexID % 3, Nat.mod_lt _ (by norm_num)⟩
  if solid ≠ 1 then
    if projIsPerspective then
      if rdot (position - uCameraEyeRtcInQuantizedSpace) normal < 0 then
        (positions ⟨2 - glVertexID % 3, by omega⟩, -viewNormalIn)
      else
        (position, viewNormalIn)
    else
      if viewNormalIn.z < 0 then
        (positions ⟨2 - glVertexID % 3, by omega⟩, -viewNormalIn)
      else
        (position, viewNormalIn)
  else
    (position, viewNormalIn)

/-- A concrete affine view matrix used in examples. -/
def exView : Mat4 := ⟨1, 2, 3, 4, 5, 6, 7, 8, 9, 10, 11, 12, 0, 0, 0, 1⟩

/-- A concrete section plane: `dist 5`, direction `+z`. -/
def exPlaneA : SectionPlane := ⟨⟨0, 0, -5⟩, 5, ⟨0, 0, 1⟩⟩

/-- Another concrete section plane: `dist 7`, direction `+x`. -/
def exPlaneB : SectionPlane := ⟨⟨7, 0, 0⟩, 7, ⟨1, 0, 0⟩⟩

/-- A plane-free scene with logarithmic depth disabled. -/
def exSceneLogOff : Scene := ⟨⟨[]⟩, false, false, false, mat4Identity, vec3Zero, mat4Identity⟩

/-- A plane-free scene with logarithmic depth enabled but not
platform-supported. -/
def exSceneLogOn : Scene := ⟨⟨[]⟩, true, false, false, mat4Identity, vec3Zero, mat4Identity⟩

/-- A one-plane scene. -/
def exSceneP1 : Scene := ⟨⟨[exPlaneA]⟩, false, false, false, mat4Identity, vec3Zero, mat4Identity⟩

/-- Another one-plane scene, differing from `exSceneP1` in plane content,
platform-support flag and camera. -/
def exSceneP2 : Scene := ⟨⟨[exPlaneB]⟩, false, true, false, exView, ⟨1, 1, 1⟩, mat4Identity⟩

/-- A model with non-zero position and identity rotation, plane 0 active on
layer 0. -/
def exModel : Model := ⟨⟨0, 0, 1⟩, mat4Identity, mat4Identity, ⟨[true]⟩⟩

/-- A layer with origin `(1,0,0)` and a single 8-bit bucket of 3 indices. -/
def exLayer : DataTextureLayer := ⟨exModel, ⟨⟨1, 0, 0⟩, 3, 0, 0⟩, 0⟩

/-- A model at the world origin with no active plane bits. -/
def exModel0 : Model := ⟨vec3Zero, mat4Identity, mat4Identity, ⟨[]⟩⟩

/-- A layer with buckets `300 / 0 / 90`. -/
def exLayer300 : DataTextureLayer := ⟨exModel0, ⟨vec3Zero, 300, 0, 90⟩, 0⟩

/-- A layer with all buckets empty. -/
def exLayer0 : DataTextureLayer := ⟨exModel0, ⟨vec3Zero, 0, 0, 0⟩, 0⟩

/-- A healthy renderer whose uniform table covers one plane. -/
def exRendererOk : RendererState := ⟨some ⟨1, false⟩, false, 1⟩

/-- A renderer left behind by a failed `_allocate`: the erroneous program
object is stored and the error flag set. -/
def exRendererFailed : RendererState := ⟨some ⟨1, true⟩, true, 0⟩

/-- A healthy plane-free renderer. -/
def exRenderer0 : RendererState := ⟨some ⟨1, false⟩, false, 0⟩

/-- A fresh frame context (no program bound yet). -/
def exFrameCtx : FrameCtx := ⟨none, 0⟩

/-- A concrete triangle in quantized object space for the backface-flip
examples: `p0 = (0,0,0)`, `p1 = (1,0,0)`, `p2 = (0,1,0)`. -/
def exPositions : Fin 3 → RVec3 := fun i =>
  if i.val = 0 then ⟨0, 0, 0⟩ else if i.val = 1 then ⟨1, 0, 0⟩ else ⟨0, 1, 0⟩

@[simp] theorem Vec3.sub_def (a b : Vec3) :
    a - b = ⟨a.x - b.x, a.y - b.y, a.z - b.z⟩ := rfl

@[simp] theorem Vec3.add_def (a b : Vec3) :
    a + b = ⟨a.x + b.x, a.y + b.y, a.z + b.z⟩ := rfl

/-- The characteristic property of the modelled RTC view matrix: applied to
the RTC coordinates `p - o` of a world point `p`, it agrees with the
original view matrix applied to `p`. -/
theorem applyPoint_createRTCViewMat (v : Mat4) (o p : Vec3) :
    (createRTCViewMat v o).applyPoint (p - o) = v.applyPoint p := by
  cases v
  cases o
  cases p
  simp only [createRTCViewMat, Mat4.mul, translationMat, Mat4.applyPoint,
    Vec3.sub_def, Vec3.mk.injEq]
  refine ⟨by ring, by ring, by ring⟩

/-- Membership in a conditional block implies the condition held. -/
theorem mem_ite_nil {α : Type} {c : Prop} [Decidable c] {l : List α} {a : α}
    (h : a ∈ if c then l else []) : c ∧ a ∈ l := by
  by_cases hc : c
  · rw [if_pos hc] at h
    exact ⟨hc, h⟩
  · rw [if_neg hc] at h
    cases h

/-- Conversely, membership in the block under the condition. -/
theorem mem_ite_of {α : Type} {c : Prop} [Decidable c] {l : List α} {a : α}
    (hc : c) (h : a ∈ l) : a ∈ if c then l else [] := by
  rw [if_pos hc]
  exact h

/-- A string whose first four characters differ from those of `a` (with `a`
at least four characters long) cannot be `a ++ t`. -/
theorem str_ne_append_take4 (a t s : String) (hlen : 4 ≤ a.data.length)
    (h : s.data.take 4 ≠ a.data.take 4) : ¬s = a ++ t := by
  intro he
  apply h
  rw [he, String.data_append]
  exact List.take_append_of_le_length hlen

/-- A string whose first four characters are not `unif`, `if (` or `   d`
and which is not `"}"` occurs in neither per-plane generated block, for any
plane count. -/
theorem notMem_planeStrings (s : String)
    (hu : s.data.take 4 ≠ ['u', 'n', 'i', 'f'])
    (hi : s.data.take 4 ≠ ['i', 'f', ' ', '('])
    (hd : s.data.take 4 ≠ [' ', ' ', ' ', 'd'])
    (hb : s ≠ "\x7d") :
    (∀ len, s ∉ sectionPlaneUniformDecls len) ∧
    (∀ len, s ∉ sectionPlaneFragClipStmts len) := by
  constructor
  · intro len hm
    unfold sectionPlaneUniformDecls at hm
    rw [List.mem_flatMap] at hm
    obtain ⟨i, -, hmem⟩ := hm
    simp only [List.mem_cons, List.not_mem_nil, or_false] at hmem
    rcases hmem with h1 | h1 | h1
    · refine str_ne_append_take4 _ _ _ (by decide) ?_ h1
      have ha : ("uniform bool sectionPlaneActive" : String).data.take 4 =
          ['u', 'n', 'i', 'f'] := by decide
      rw [ha]
      exact hu
    · refine str_ne_append_take4 _ _ _ (by decide) ?_ h1
      have ha : ("uniform vec3 sectionPlanePos" : String).data.take 4 =
          ['u', 'n', 'i', 'f'] := by decide
      rw [ha]
      exact hu
    · refine str_ne_append_take4 _ _ _ (by decide) ?_ h1
      have ha : ("uniform vec3 sectionPlaneDir" : String).data.take 4 =
          ['u', 'n', 'i', 'f'] := by decide
      rw [ha]
      exact hu
  · intro len hm
    unfold sectionPlaneFragClipStmts at hm
    rw [List.mem_flatMap] at hm
    obtain ⟨i, -, hmem⟩ := hm
    simp only [List.mem_cons, List.not_mem_nil, or_false] at hmem
    rcases hmem with h1 | h1 | h1
    · refine str_ne_append_take4 _ _ _ (by decide) ?_ h1
      have ha : ("if (sectionPlaneActive" : String).data.take 4 =
          ['i', 'f', ' ', '('] := by decide
      rw [ha]
      exact hi
    · refine str_ne_append_take4 _ _ _ (by decide) ?_ h1
      have ha : ("   dist += clamp(dot(-sectionPlaneDir" : String).data.take 4 =
          [' ', ' ', ' ', 'd'] := by decide
      rw [ha]
      exact hd
    · exact hb h1

/-- Characterisation of the fragment source's conditional logarithmic-depth
lines: a line belonging to the log-depth blocks and to no other block occurs
in the built fragment source exactly when logarithmic depth is enabled. -/
theorem mem_frag_iff_logdepth (scene : Scene) (s : String)
    (hs : s ∈ frgLogDecls ∨ s = fragDepthLine)
    (hP : s ∉ frgPrologue)
    (hM : s ≠ "void main(void) \x7b")
    (hC1 : s ∉ (["in vec4 vWorldPosition;", "flat in uint vFlags2;"] : List String))
    (hC2 : s ∉ (["  bool clippable = vFlags2 > 0u;", "  if (clippable) \x7b",
      "  float dist = 0.0;"] : List String))
    (hC3 : s ∉ (["  if (dist > 0.0) \x7b ", "      discard;", "  \x7d",
      "\x7d"] : List String))
    (hE : s ∉ frgEpilogue)
    (hU : ∀ len, s ∉ sectionPlaneUniformDecls len)
    (hS : ∀ len, s ∉ sectionPlaneFragClipStmts len) :
    (s ∈ _buildFragmentShader scene) ↔
      scene.logarithmicDepthBufferEnabled = true := by
  unfold _buildFragmentShader
  constructor
  · intro h
    simp only [List.mem_append] at h
    rcases h with ((((((h | h) | h) | h) | h) | h) | h)
    · exact absurd h hP
    · exact (mem_ite_nil h).1
    · obtain ⟨-, h⟩ := mem_ite_nil h
      unfold frgClipDecls at h
      rw [List.mem_append] at h
      rcases h with h | h
      · exact absurd h hC1
      · exact absurd h (hU _)
    · rw [List.mem_singleton] at h
      exact absurd h hM
    · obtain ⟨-, h⟩ := mem_ite_nil h
      unfold frgClipMain at h
      simp only [List.mem_append] at h
      rcases h with (h | h) | h
      · exact absurd h hC2
      · exact absurd h (hS _)
      · exact absurd h hC3
    · exact (mem_ite_nil h).1
    · exact absurd h hE
  · intro hlde
    simp only [List.mem_append]
    rcases hs with hs | hs
    · exact Or.inl (Or.inl (Or.inl (Or.inl (Or.inl (Or.inr
        (mem_ite_of hlde hs))))))
    · refine Or.inl (Or.inr (mem_ite_of hlde ?_))
      rw [hs]
      exact List.mem_singleton_self _

/-- Characterisation of the vertex source's conditional logarithmic-depth
lines: a line belonging to the log-depth blocks and to no other block occurs
in the built vertex source exactly when logarithmic depth is enabled. -/
theorem mem_vtx_iff_logdepth (scene : Scene) (s : String)
    (hs : s ∈ vtxLogDecls ∨ s ∈ vtxLogAssigns)
    (hP : s ∉ vtxPrologue)
    (hO : s ≠ "in vec3 offset;")
    (hD : s ∉ vtxDecls)
    (hH : s ∉ vtxHelpers)
    (hCd : s ∉ vtxClipDecls)
    (hM : s ∉ vtxMain)
    (hCa : s ∉ vtxClipAssigns)
    (hE : s ∉ vtxEpilogue) :
    (s ∈ _buildVertexShader scene) ↔
      scene.logarithmicDepthBufferEnabled = true := by
  unfold _buildVertexShader
  constructor
  · intro h
    simp only [List.mem_append] at h
    rcases h with (((((((((h | h) | h) | h) | h) | h) | h) | h) | h) | h)
    · exact absurd h hP
    · obtain ⟨-, h⟩ := mem_ite_nil h
      rw [List.mem_singleton] at h
      exact absurd h hO
    · exact absurd h hD
    · exact (mem_ite_nil h).1
    · exact absurd h hH
    · exact absurd (mem_ite_nil h).2 hCd
    · exact absurd h hM
    · exact (mem_ite_nil h).1
    · exact absurd (mem_ite_nil h).2 hCa
    · exact absurd h hE
  · intro hlde
    simp only [List.mem_append]
    rcases hs with hs | hs
    · exact Or.inl (Or.inl (Or.inl (Or.inl (Or.inl (Or.inl (Or.inr
        (mem_ite_of hlde hs)))))))
    · exact Or.inl (Or.inl (Or.inr (mem_ite_of hlde hs)))

/-- C4 (amended): the generated vertex and fragment sources contain the
logarithmic-depth varyings `vFragDepth` and `isPerspective`, and the
fragment stage contains the depth formula line
`gl_FragDepth = isPerspective == 0.0 ? gl_FragCoord.z : log2( vFragDepth ) *
logDepthBufFC * 0.5;` (the spec's ternary with branches swapped), exactly
when logarithmic depth buffering is enabled in the snapshot; they are
omitted otherwise.  The platform-support flag is not consulted by this
builder. -/
theorem c4_logdepth_lines_iff (scene : Scene) :
    (("out float vFragDepth;" ∈ _buildVertexShader scene) ↔
      scene.logarithmicDepthBufferEnabled = true) ∧
    (("out float isPerspective;" ∈ _buildVertexShader scene) ↔
      scene.logarithmicDepthBufferEnabled = true) ∧
    (("in float vFragDepth;" ∈ _buildFragmentShader scene) ↔
      scene.logarithmicDepthBufferEnabled = true) ∧
    (("in float isPerspective;" ∈ _buildFragmentShader scene) ↔
      scene.logarithmicDepthBufferEnabled = true) ∧
    ((fragDepthLine ∈ _buildFragmentShader scene) ↔
      scene.logarithmicDepthBufferEnabled = true) := by
  have hv1 := notMem_planeStrings "in float vFragDepth;"
    (by decide) (by decide) (by decide) (by decide)
  have hv2 := notMem_planeStrings "in float isPerspective;"
    (by decide) (by decide) (by decide) (by decide)
  have hv3 := notMem_planeStrings fragDepthLine
    (by decide) (by decide) (by decide) (by decide)
  refine ⟨?_, ?_, ?_, ?_, ?_⟩
  · exact mem_vtx_iff_logdepth scene _ (Or.inl (by decide)) (by decide)
      (by decide) (by decide) (by decide) (by decide) (by decide) (by decide)
      (by decide)
  · exact mem_vtx_iff_logdepth scene _ (Or.inl (by decide)) (by decide)
      (by decide) (by decide) (by decide) (by decide) (by decide) (by decide)
      (by decide)
  · exact mem_frag_iff_logdepth scene _ (Or.inl (by decide)) (by decide)
      (by decide) (by decide) (by decide) (by decide) (by decide) hv1.1 hv1.2
  · exact mem_frag_iff_logdepth scene _ (Or.inl (by decide)) (by decide)
      (by decide) (by decide) (by decide) (by decide) (by decide) hv2.1 hv2.2
  · exact mem_frag_iff_logdepth scene _ (Or.inr rfl) (by decide)
      (by decide) (by decide) (by decide) (by decide) (by decide) hv3.1 hv3.2

/-- C4 counterexample: in a snapshot with logarithmic depth enabled but NOT
platform-supported, the varyings and the depth formula are still emitted,
refuting the claim that they appear exactly when the feature is enabled AND
platform-supported (and are omitted otherwise). -/
theorem c4_counterexample :
    exSceneLogOn.logarithmicDepthBufferEnabled = true ∧
    exSceneLogOn.logarithmicDepthBufferSupported = false ∧
    "out float vFragDepth;" ∈ _buildVertexShader exSceneLogOn ∧
    "out float isPerspective;" ∈ _buildVertexShader exSceneLogOn ∧
    fragDepthLine ∈ _buildFragmentShader exSceneLogOn := by decide

/-- C1 counterexample: two snapshots with equal derived hash (`_getHash`
covers only the section-planes state) but different logarithmic-depth
enablement produce different vertex and fragment sources, refuting the claim
that equal hash alone forces byte-identical shader source. -/
theorem c1_counterexample :
    _getHash exSceneLogOn = _getHash exSceneLogOff ∧
    exSceneLogOn.logarithmicDepthBufferEnabled ≠
      exSceneLogOff.logarithmicDepthBufferEnabled ∧
    _buildVertexShader exSceneLogOn ≠ _buildVertexShader exSceneLogOff ∧
    _buildFragmentShader exSceneLogOn ≠ _buildFragmentShader exSceneLogOff := by
  decide

/-- C1 (amended): for snapshots that agree on the derived hash AND on
logarithmic-depth and entity-offset enablement, the builder produces
byte-identical ordered source-line sequences for both stages. -/
theorem c1_amended_equal_hash_equal_source (s1 s2 : Scene)
    (hh : _getHash s1 = _getHash s2)
    (hl : s1.logarithmicDepthBufferEnabled = s2.logarithmicDepthBufferEnabled)
    (he : s1.entityOffsetsEnabled = s2.entityOffsetsEnabled) :
    _buildVertexShader s1 = _buildVertexShader s2 ∧
    _buildFragmentShader s1 = _buildFragmentShader s2 := by
  have hc : s1._sectionPlanesState.sectionPlanes.length =
      s2._sectionPlanesState.sectionPlanes.length := hh
  constructor
  · unfold _buildVertexShader
    rw [hc, hl, he]
  · unfold _buildFragmentShader
    rw [hc, hl]

/-- C1 amended witness: two concrete one-plane snapshots with different
plane content, camera state and platform-support flags, to which the
amended theorem applies: equal hash plus equal enablement flags yield
identical sources. -/
theorem c1_amended_witness :
    _getHash exSceneP1 = _getHash exSceneP2 ∧
    _buildVertexShader exSceneP1 = _buildVertexShader exSceneP2 ∧
    _buildFragmentShader exSceneP1 = _buildFragmentShader exSceneP2 :=
  ⟨rfl,
   (c1_amended_equal_hash_equal_source exSceneP1 exSceneP2 rfl rfl rfl).1,
   (c1_amended_equal_hash_equal_source exSceneP1 exSceneP2 rfl rfl rfl).2⟩

/-- C5: in the generated vertex stage's pass filter, an object whose packed
`flags.x` equals the `renderPass` uniform is never culled by the filter
(zero false positives), and an object whose `flags.x` differs is assigned
the position `(3,3,3,1)`, which lies outside the canonical clip volume, and
processing terminates (zero false negatives). -/
theorem c5_pass_filter (flagsx : Nat) (renderPass : Int) :
    (int32OfUInt flagsx = renderPass →
      vertexPassFilter flagsx renderPass = PassFilterResult.accepted) ∧
    (int32OfUInt flagsx ≠ renderPass →
      vertexPassFilter flagsx renderPass = PassFilterResult.culled ⟨3, 3, 3, 1⟩ ∧
      outsideClipVolume ⟨3, 3, 3, 1⟩) := by
  constructor
  · intro h
    simp [vertexPassFilter, h]
  · intro h
    exact ⟨by simp [vertexPassFilter, h], by decide⟩

/-- C5 witness: with packed flag `2`, a draw with `renderPass = 2` accepts
the object and a draw with `renderPass = 3` culls it outside the clip
volume. -/
theorem c5_pass_filter_witness :
    vertexPassFilter 2 2 = PassFilterResult.accepted ∧
    vertexPassFilter 2 3 = PassFilterResult.culled ⟨3, 3, 3, 1⟩ ∧
    outsideClipVolume ⟨3, 3, 3, 1⟩ :=
  ⟨(c5_pass_filter 2 2).1 (by decide),
   ((c5_pass_filter 2 3).2 (by decide)).1,
   ((c5_pass_filter 2 3).2 (by decide)).2⟩

/-- C6: `drawLayer`'s RTC step uses the camera's view matrix and eye
unmodified when both the layer origin and the model position are zero; for
any non-zero origin or position it produces a camera-eye vector equal to
`camera.eye - rtcOrigin` and a view matrix acting on RTC coordinates
`p - rtcOrigin` exactly as the camera view matrix acts on the world point
`p`, where `rtcOrigin` is the origin rotated by the model's rotation matrix
when the origin is non-zero (otherwise zero) plus the model position. -/
theorem c6_rtc_rebasing (viewMatrix : Mat4) (eye : Vec3)
    (rotationMatrix : Mat4) (origin position : Vec3) :
    (origin = vec3Zero ∧ position = vec3Zero →
      computeRTC viewMatrix eye rotationMatrix origin position =
        (viewMatrix, eye)) ∧
    (¬(origin = vec3Zero ∧ position = vec3Zero) →
      (computeRTC viewMatrix eye rotationMatrix origin position).2 =
        eye - ((if origin ≠ vec3Zero then transformPoint3 rotationMatrix origin
                else vec3Zero) + position) ∧
      ∀ p : Vec3,
        (computeRTC viewMatrix eye rotationMatrix origin position).1.applyPoint
          (p - ((if origin ≠ vec3Zero then transformPoint3 rotationMatrix origin
                 else vec3Zero) + position)) =
        viewMatrix.applyPoint p) := by
  constructor
  · rintro ⟨h1, h2⟩
    simp [computeRTC, h1, h2]
  · intro h
    have hor : origin ≠ vec3Zero ∨ position ≠ vec3Zero := by
      rcases not_and_or.mp h with h1 | h1
      · exact Or.inl h1
      · exact Or.inr h1
    refine ⟨?_, fun p => ?_⟩
    · simp only [computeRTC, if_pos hor]
    · simp only [computeRTC, if_pos hor]
      exact applyPoint_createRTCViewMat viewMatrix _ p

/-- C6 witness: the zero case passes through unchanged, and with origin
`(1,0,0)`, position `(0,0,1)` and identity rotation, the rebased camera eye
and the view-matrix transform property hold at the concrete point
`(2,3,4)`. -/
theorem c6_rtc_rebasing_witness :
    computeRTC exView ⟨1, 1, 1⟩ mat4Identity vec3Zero vec3Zero =
      (exView, ⟨1, 1, 1⟩) ∧
    (computeRTC exView ⟨1, 1, 1⟩ mat4Identity ⟨1, 0, 0⟩ ⟨0, 0, 1⟩).2 =
      Vec3.mk 1 1 1 -
        ((if (⟨1, 0, 0⟩ : Vec3) ≠ vec3Zero then
            transformPoint3 mat4Identity ⟨1, 0, 0⟩ else vec3Zero) +
          Vec3.mk 0 0 1) ∧
    (computeRTC exView ⟨1, 1, 1⟩ mat4Identity ⟨1, 0, 0⟩ ⟨0, 0, 1⟩).1.applyPoint
      (Vec3.mk 2 3 4 -
        ((if (⟨1, 0, 0⟩ : Vec3) ≠ vec3Zero then
            transformPoint3 mat4Identity ⟨1, 0, 0⟩ else vec3Zero) +
          Vec3.mk 0 0 1)) =
      exView.applyPoint ⟨2, 3, 4⟩ :=
  ⟨(c6_rtc_rebasing exView ⟨1, 1, 1⟩ mat4Identity vec3Zero vec3Zero).1
      ⟨rfl, rfl⟩,
   ((c6_rtc_rebasing exView ⟨1, 1, 1⟩ mat4Identity ⟨1, 0, 0⟩ ⟨0, 0, 1⟩).2
      (by decide)).1,
   ((c6_rtc_rebasing exView ⟨1, 1, 1⟩ mat4Identity ⟨1, 0, 0⟩ ⟨0, 0, 1⟩).2
      (by decide)).2 ⟨2, 3, 4⟩⟩

@[simp] theorem RVec3.sub_eq (a b : RVec3) :
    a - b = ⟨a.x - b.x, a.y - b.y, a.z - b.z⟩ := rfl

@[simp] theorem RVec3.neg_eq (a : RVec3) : -a = ⟨-a.x, -a.y, -a.z⟩ := rfl

/-- C7: in the generated vertex stage, for non-solid geometry only
(`solid != 1u`): under a perspective projection the winding is reversed
(the vertex position becomes `positions[2 - (gl_VertexID % 3)]`, the cyclic
equivalent of order `0,2,1`) and the view normal negated exactly when the
dot product of (vertex position minus the camera eye transformed into
quantized object space) with the face normal
`normalize(cross(p2 - p0, p1 - p0))` is negative; under an orthographic
projection exactly when the view normal's `z` component is negative; solid
geometry is never flipped.  The flip decision consumes the face normal
computed from the original winding, and its result is the position used for
final assembly. -/
theorem c7_backface_flip (solid : Nat) (persp : Bool)
    (positions : Fin 3 → RVec3) (vid : Nat) (eyeQ viewNormal : RVec3) :
    (solid = 1 →
      backfaceFlipStep solid persp positions vid eyeQ viewNormal =
        (positions ⟨vid % 3, Nat.mod_lt _ (by norm_num)⟩, viewNormal)) ∧
    (solid ≠ 1 → persp = true →
      (rdot (positions ⟨vid % 3, Nat.mod_lt _ (by norm_num)⟩ - eyeQ)
          (rnormalize (rcross (positions 2 - positions 0)
            (positions 1 - positions 0))) < 0 →
        backfaceFlipStep solid persp positions vid eyeQ viewNormal =
          (positions ⟨2 - vid % 3, by omega⟩, -viewNormal)) ∧
      (¬rdot (positions ⟨vid % 3, Nat.mod_lt _ (by norm_num)⟩ - eyeQ)
          (rnormalize (rcross (positions 2 - positions 0)
            (positions 1 - positions 0))) < 0 →
        backfaceFlipStep solid persp positions vid eyeQ viewNormal =
          (positions ⟨vid % 3, Nat.mod_lt _ (by norm_num)⟩, viewNormal))) ∧
    (solid ≠ 1 → persp = false →
      (viewNormal.z < 0 →
        backfaceFlipStep solid persp positions vid eyeQ viewNormal =
          (positions ⟨2 - vid % 3, by omega⟩, -viewNormal)) ∧
      (¬viewNormal.z < 0 →
        backfaceFlipStep solid persp positions vid eyeQ viewNormal =
          (positions ⟨vid % 3, Nat.mod_lt _ (by norm_num)⟩, viewNormal))) := by
  refine ⟨fun hs => ?_,
    fun hs hp => ⟨fun hlt => ?_, fun hge => ?_⟩,
    fun hs hp => ⟨fun hlt => ?_, fun hge => ?_⟩⟩
  · simp only [backfaceFlipStep, if_neg (not_not_intro hs)]
  · subst hp
    simp only [backfaceFlipStep, if_pos hs, eq_self_iff_true, if_true,
      if_pos hlt]
  · subst hp
    simp only [backfaceFlipStep, if_pos hs, eq_self_iff_true, if_true,
      if_neg hge]
  · subst hp
    simp only [backfaceFlipStep, if_pos hs, Bool.false_eq_true, if_false,
      if_pos hlt]
  · subst hp
    simp only [backfaceFlipStep, if_pos hs, Bool.false_eq_true, if_false,
      if_neg hge]

/-- C7 witness: for the concrete non-solid triangle `exPositions` under a
perspective projection with quantized-space eye `(0,0,-1)`, the flip
condition holds at vertex 0 and the step returns the reversed-winding
position `p2 = (0,1,0)` with the negated view normal. -/
theorem c7_backface_flip_witness :
    backfaceFlipStep 0 true exPositions 0 ⟨0, 0, -1⟩ ⟨0, 0, 1⟩ =
      (⟨0, 1, 0⟩, -(⟨0, 0, 1⟩ : RVec3)) := by
  have hlt : rdot (exPositions ⟨0 % 3, Nat.mod_lt _ (by norm_num)⟩ -
      (⟨0, 0, -1⟩ : RVec3))
      (rnormalize (rcross (exPositions 2 - exPositions 0)
        (exPositions 1 - exPositions 0))) < 0 := by
    have h2 : exPositions 2 = ⟨0, 1, 0⟩ := by norm_num [exPositions]
    have h1 : exPositions 1 = ⟨1, 0, 0⟩ := by norm_num [exPositions]
    have h0 : exPositions 0 = ⟨0, 0, 0⟩ := by norm_num [exPositions]
    have hz : exPositions ⟨0 % 3, Nat.mod_lt _ (by norm_num)⟩ = ⟨0, 0, 0⟩ := by
      norm_num [exPositions]
    rw [h2, h1, h0, hz]
    simp only [RVec3.sub_eq, rcross, rdot, rnormalize]
    norm_num [Real.sqrt_one]
  have h := ((c7_backface_flip 0 true exPositions 0 ⟨0, 0, -1⟩
    ⟨0, 0, 1⟩).2.1 (by norm_num) rfl).1 hlt
  rw [h]
  have h2 : exPositions ⟨2 - 0 % 3, by omega⟩ = ⟨0, 1, 0⟩ := by
    norm_num [exPositions]
  rw [h2]

@[simp] theorem drawArraysCounts_append (a b : List GLAction) :
    drawArraysCounts (a ++ b) = drawArraysCounts a ++ drawArraysCounts b :=
  List.filterMap_append a b _

/-- Every action generated by the section-plane loop is a section-plane
uniform upload. -/
theorem planeActs_shape (scene : Scene) (layer : DataTextureLayer)
    (uLen : Nat) :
    ∀ a ∈ sectionPlaneActions scene layer uLen,
      (∃ i v, a = GLAction.uniformSectionActive i v) ∨
      (∃ i v, a = GLAction.uniformSectionPos i v) ∨
      (∃ i v, a = GLAction.uniformSectionDir i v) := by
  intro a ha
  unfold sectionPlaneActions at ha
  rcases mem_ite_nil ha with ⟨-, ha⟩
  rw [List.mem_flatMap] at ha
  obtain ⟨i, -, hmem⟩ := ha
  obtain ⟨-, hmem⟩ := mem_ite_nil hmem
  rw [List.mem_append] at hmem
  rcases hmem with h | h
  · rw [List.mem_singleton] at h
    exact Or.inl ⟨_, _, h⟩
  · obtain ⟨-, h⟩ := mem_ite_nil h
    simp only [List.mem_cons, List.not_mem_nil, or_false] at h
    rcases h with h | h
    · exact Or.inr (Or.inl ⟨_, _, h⟩)
    · exact Or.inr (Or.inr ⟨_, _, h⟩)

@[simp] theorem drawArraysCounts_planeActs (scene : Scene)
    (layer : DataTextureLayer) (uLen : Nat) :
    drawArraysCounts (sectionPlaneActions scene layer uLen) = [] := by
  rw [drawArraysCounts, List.filterMap_eq_nil_iff]
  intro a ha
  rcases planeActs_shape scene layer uLen a ha with ⟨i, v, h⟩ | ⟨i, v, h⟩ | ⟨i, v, h⟩ <;>
    subst h <;> rfl

@[simp] theorem drawArraysCounts_bindProgram (scene : Scene) (progId : Nat) :
    drawArraysCounts (_bindProgram scene progId) = [] := by
  cases hl : scene.logarithmicDepthBufferEnabled <;>
    simp [_bindProgram, drawArraysCounts, hl]

/-- The draw counts recorded by the bucket dispatch: one count per positive
bucket, in 8/16/32 order. -/
theorem drawArraysCounts_bucketActions (state : LayerState) :
    drawArraysCounts (bucketActions state) =
      (if 0 < state.numIndices8Bits then [state.numIndices8Bits] else []) ++
      (if 0 < state.numIndices16Bits then [state.numIndices16Bits] else []) ++
      (if 0 < state.numIndices32Bits then [state.numIndices32Bits] else []) := by
  by_cases h8 : 0 < state.numIndices8Bits <;>
  by_cases h16 : 0 < state.numIndices16Bits <;>
  by_cases h32 : 0 < state.numIndices32Bits <;>
  simp [bucketActions, drawArraysCounts, h8, h16, h32]

@[simp] theorem bindCount_nil : bindCount [] = 0 := rfl

@[simp] theorem bindCount_append (a b : List GLAction) :
    bindCount (a ++ b) = bindCount a + bindCount b := by
  simp [bindCount, List.filter_append]

@[simp] theorem bindCount_cons (a : GLAction) (l : List GLAction) :
    bindCount (a :: l) =
      (match a with
       | GLAction.bindProgram _ => 1
       | _ => 0) + bindCount l := by
  cases a <;> simp [bindCount, List.filter_cons]
  omega

@[simp] theorem bindCount_planeActs (scene : Scene) (layer : DataTextureLayer)
    (uLen : Nat) : bindCount (sectionPlaneActions scene layer uLen) = 0 := by
  rw [bindCount, List.length_eq_zero, List.filter_eq_nil_iff]
  intro a ha
  rcases planeActs_shape scene layer uLen a ha with ⟨i, v, h⟩ | ⟨i, v, h⟩ | ⟨i, v, h⟩ <;>
    subst h <;> simp

@[simp] theorem bindCount_bucketActions (state : LayerState) :
    bindCount (bucketActions state) = 0 := by
  by_cases h8 : 0 < state.numIndices8Bits <;>
  by_cases h16 : 0 < state.numIndices16Bits <;>
  by_cases h32 : 0 < state.numIndices32Bits <;>
  simp [bucketActions, h8, h16, h32]

@[simp] theorem bindCount_bindProgram (scene : Scene) (progId : Nat) :
    bindCount (_bindProgram scene progId) = 1 := by
  cases hl : scene.logarithmicDepthBufferEnabled <;>
    simp [_bindProgram, hl]

/-- `drawLayerBody` leaves the renderer state untouched, leaves the frame
context's last program at this renderer's program identity, and increments
`drawElements` by exactly one. -/
theorem drawLayerBody_state (scene : Scene) (r : RendererState)
    (p : ProgramRec) (fc : FrameCtx) (layer : DataTextureLayer)
    (renderPass : Int) :
    (drawLayerBody scene r p fc layer renderPass).1 = r ∧
    (drawLayerBody scene r p fc layer renderPass).2.1.lastProgramId =
      some p.id ∧
    (drawLayerBody scene r p fc layer renderPass).2.1.drawElements =
      fc.drawElements + 1 := by
  unfold drawLayerBody
  by_cases h : fc.lastProgramId ≠ some p.id
  · simp [h]
  · simp [h]
    exact not_not.mp h

/-- The program-bind count of one `drawLayerBody` trace is one exactly when
the frame context's last program differed from this renderer's program. -/
theorem bindCount_drawLayerBody (scene : Scene) (r : RendererState)
    (p : ProgramRec) (fc : FrameCtx) (layer : DataTextureLayer)
    (renderPass : Int) :
    bindCount (drawLayerBody scene r p fc layer renderPass).2.2 =
      if fc.lastProgramId ≠ some p.id then 1 else 0 := by
  unfold drawLayerBody
  by_cases h : fc.lastProgramId ≠ some p.id <;>
  cases hl : scene.logarithmicDepthBufferEnabled <;>
  simp [h, hl]

/-- The draw counts of one `drawLayerBody` trace are exactly those of the
bucket dispatch. -/
theorem drawArraysCounts_drawLayerBody (scene : Scene) (r : RendererState)
    (p : ProgramRec) (fc : FrameCtx) (layer : DataTextureLayer)
    (renderPass : Int) :
    drawArraysCounts (drawLayerBody scene r p fc layer renderPass).2.2 =
      drawArraysCounts (bucketActions layer._state) := by
  unfold drawLayerBody
  by_cases h : fc.lastProgramId ≠ some p.id <;>
  cases hl : scene.logarithmicDepthBufferEnabled <;>
  simp [h, hl, drawArraysCounts, _bindProgram] <;>
  · intro a ha
    rcases planeActs_shape scene layer r.uSectionPlanesLen a ha with
      ⟨i, v, hh⟩ | ⟨i, v, hh⟩ | ⟨i, v, hh⟩ <;> subst hh <;> rfl

/-- Every `drawLayerBody` trace binds the layer's common textures. -/
theorem bindCommonTextures_mem_drawLayerBody (scene : Scene)
    (r : RendererState) (p : ProgramRec) (fc : FrameCtx)
    (layer : DataTextureLayer) (renderPass : Int) :
    GLAction.bindCommonTextures ∈
      (drawLayerBody scene r p fc layer renderPass).2.2 := by
  unfold drawLayerBody
  by_cases h : fc.lastProgramId ≠ some p.id <;> simp [h]

/-- Per-plane upload behaviour of the section-plane loop: for a plane index
within both the scene's plane list and the allocated uniform table, the
`active` boolean is always uploaded (with the per-layer bit's value), and the
position/direction pair is uploaded exactly when the bit is set — the
position being the plane's reference point rebased by the layer's stored
origin. -/
theorem sectionPlaneActions_spec (scene : Scene) (layer : DataTextureLayer)
    (uLen : Nat) (i : Nat)
    (hi : i < scene._sectionPlanesState.sectionPlanes.length)
    (hu : i < uLen) :
    (GLAction.uniformSectionActive i
        (if layer.model.renderFlags.sectionPlanesActivePerLayer.getD
            (layer.layerIndex * scene._sectionPlanesState.sectionPlanes.length + i)
            false
         then 1 else 0) ∈ sectionPlaneActions scene layer uLen) ∧
    (layer.model.renderFlags.sectionPlanesActivePerLayer.getD
        (layer.layerIndex * scene._sectionPlanesState.sectionPlanes.length + i)
        false = true →
      GLAction.uniformSectionPos i
          (getPlaneRTCPos
            (scene._sectionPlanesState.sectionPlanes.getD i
              ⟨vec3Zero, 0, vec3Zero⟩).dist
            (scene._sectionPlanesState.sectionPlanes.getD i
              ⟨vec3Zero, 0, vec3Zero⟩).dir
            layer._state.origin) ∈ sectionPlaneActions scene layer uLen ∧
      GLAction.uniformSectionDir i
          (scene._sectionPlanesState.sectionPlanes.getD i
            ⟨vec3Zero, 0, vec3Zero⟩).dir ∈
        sectionPlaneActions scene layer uLen) ∧
    (layer.model.renderFlags.sectionPlanesActivePerLayer.getD
        (layer.layerIndex * scene._sectionPlanesState.sectionPlanes.length + i)
        false = false →
      (∀ v, GLAction.uniformSectionPos i v ∉
        sectionPlaneActions scene layer uLen) ∧
      (∀ v, GLAction.uniformSectionDir i v ∉
        sectionPlaneActions scene layer uLen)) := by
  have hN : 0 < scene._sectionPlanesState.sectionPlanes.length :=
    Nat.lt_of_le_of_lt (Nat.zero_le _) hi
  unfold sectionPlaneActions
  rw [if_pos hN]
  refine ⟨?_, fun hbit => ⟨?_, ?_⟩, fun hbit => ⟨fun v hmem => ?_, fun v hmem => ?_⟩⟩
  · refine List.mem_flatMap.mpr ⟨i, List.mem_range.mpr hi, ?_⟩
    rw [if_pos hu]
    exact List.mem_append_left _ (List.mem_singleton_self _)
  · refine List.mem_flatMap.mpr ⟨i, List.mem_range.mpr hi, ?_⟩
    rw [if_pos hu]
    refine List.mem_append_right _ (mem_ite_of hbit ?_)
    exact List.mem_cons_self _ _
  · refine List.mem_flatMap.mpr ⟨i, List.mem_range.mpr hi, ?_⟩
    rw [if_pos hu]
    refine List.mem_append_right _ (mem_ite_of hbit ?_)
    exact List.mem_cons_of_mem _ (List.mem_singleton_self _)
  · rw [List.mem_flatMap] at hmem
    obtain ⟨j, -, hj⟩ := hmem
    obtain ⟨-, hj⟩ := mem_ite_nil hj
    rw [List.mem_append] at hj
    rcases hj with hj | hj
    · rw [List.mem_singleton] at hj
      cases hj
    · obtain ⟨hbitj, hj⟩ := mem_ite_nil hj
      simp only [List.mem_cons, List.not_mem_nil, or_false] at hj
      rcases hj with hj | hj
      · obtain ⟨rfl, -⟩ := GLAction.uniformSectionPos.inj hj
        rw [hbit] at hbitj
        cases hbitj
      · cases hj
  · rw [List.mem_flatMap] at hmem
    obtain ⟨j, -, hj⟩ := hmem
    obtain ⟨-, hj⟩ := mem_ite_nil hj
    rw [List.mem_append] at hj
    rcases hj with hj | hj
    · rw [List.mem_singleton] at hj
      cases hj
    · obtain ⟨hbitj, hj⟩ := mem_ite_nil hj
      simp only [List.mem_cons, List.not_mem_nil, or_false] at hj
      rcases hj with hj | hj
      · cases hj
      · obtain ⟨rfl, -⟩ := GLAction.uniformSectionDir.inj hj
        rw [hbit] at hbitj
        cases hbitj

@[simp] theorem mem_ite_nil_iff {α : Type} {c : Prop} [Decidable c]
    {l : List α} {a : α} : (a ∈ if c then l else []) ↔ c ∧ a ∈ l :=
  ⟨mem_ite_nil, fun ⟨hc, h⟩ => mem_ite_of hc h⟩

/-- A section-plane uniform upload occurs in a `drawLayerBody` trace exactly
when it occurs in the section-plane loop's own actions. -/
theorem sectionUpload_mem_body_iff (scene : Scene) (r : RendererState)
    (p : ProgramRec) (fc : FrameCtx) (layer : DataTextureLayer)
    (renderPass : Int) :
    (∀ i v, (GLAction.uniformSectionActive i v ∈
        (drawLayerBody scene r p fc layer renderPass).2.2) ↔
      GLAction.uniformSectionActive i v ∈
        sectionPlaneActions scene layer r.uSectionPlanesLen) ∧
    (∀ i v, (GLAction.uniformSectionPos i v ∈
        (drawLayerBody scene r p fc layer renderPass).2.2) ↔
      GLAction.uniformSectionPos i v ∈
        sectionPlaneActions scene layer r.uSectionPlanesLen) ∧
    (∀ i v, (GLAction.uniformSectionDir i v ∈
        (drawLayerBody scene r p fc layer renderPass).2.2) ↔
      GLAction.uniformSectionDir i v ∈
        sectionPlaneActions scene layer r.uSectionPlanesLen) := by
  refine ⟨fun i v => ?_, fun i v => ?_, fun i v => ?_⟩ <;>
  · unfold drawLayerBody
    by_cases h : fc.lastProgramId ≠ some p.id <;>
    cases hl : scene.logarithmicDepthBufferEnabled <;>
    simp [h, hl, _bindProgram, bucketActions]

/-- If a trace has no program binds, it contains no `bindProgram` action. -/
theorem bindProgram_notMem_of_bindCount_zero (l : List GLAction)
    (hz : bindCount l = 0) (i : Nat) : GLAction.bindProgram i ∉ l := by
  intro hm
  rw [bindCount, List.length_eq_zero, List.filter_eq_nil_iff] at hz
  have := hz _ hm
  simp at this

/-- When a bind is needed, the body's trace contains the program bind. -/
theorem bindProgram_mem_drawLayerBody (scene : Scene) (r : RendererState)
    (p : ProgramRec) (fc : FrameCtx) (layer : DataTextureLayer)
    (renderPass : Int) (h : fc.lastProgramId ≠ some p.id) :
    GLAction.bindProgram p.id ∈
      (drawLayerBody scene r p fc layer renderPass).2.2 := by
  unfold drawLayerBody
  simp [h, _bindProgram]

/-- C2 (amended): when `drawLayer` finds no program and the lazy `_allocate`
fails, that call stores the failed program object, records the error flag
and returns with an empty trace and an unchanged frame context; while a
program object is stored (even an erroneous one), `_allocate` is never
re-invoked (the renderer state is returned unchanged) and the call is NOT a
no-op — it still binds the layer's textures (and goes on to upload uniforms
and draw). -/
theorem c2_error_terminality (compileOk : Bool) (newId : Nat) (scene : Scene)
    (r : RendererState) (fc : FrameCtx) (layer : DataTextureLayer)
    (renderPass : Int) :
    (r._program = none → compileOk = false →
      drawLayer compileOk newId scene r fc layer renderPass =
        ({ _program := some { id := newId, errors := true }, errors := true,
           uSectionPlanesLen := r.uSectionPlanesLen }, fc,
         ([] : List GLAction))) ∧
    (∀ p, r._program = some p →
      (drawLayer compileOk newId scene r fc layer renderPass).1 = r) ∧
    (∀ p, r._program = some p →
      GLAction.bindCommonTextures ∈
        (drawLayer compileOk newId scene r fc layer renderPass).2.2) := by
  refine ⟨fun hp hc => ?_, fun p hp => ?_, fun p hp => ?_⟩
  · subst hc
    simp [drawLayer, hp, _allocate]
  · simp only [drawLayer, hp]
    exact (drawLayerBody_state scene r p fc layer renderPass).1
  · simp only [drawLayer, hp]
    exact bindCommonTextures_mem_drawLayerBody scene r p fc layer renderPass

/-- C2 witness: a failing lazy allocation returns the empty trace and stores
the failed program; a renderer already holding a (failed) program is left
unchanged and its call still binds textures. -/
theorem c2_error_terminality_witness :
    drawLayer false 2 exSceneLogOff ⟨none, false, 0⟩ exFrameCtx exLayer 0 =
      (⟨some ⟨2, true⟩, true, 0⟩, exFrameCtx, []) ∧
    (drawLayer false 2 exSceneLogOff exRendererFailed exFrameCtx exLayer 0).1 =
      exRendererFailed ∧
    GLAction.bindCommonTextures ∈
      (drawLayer false 2 exSceneLogOff exRendererFailed exFrameCtx exLayer 0).2.2 :=
  ⟨(c2_error_terminality false 2 exSceneLogOff ⟨none, false, 0⟩ exFrameCtx
      exLayer 0).1 rfl rfl,
   (c2_error_terminality false 2 exSceneLogOff exRendererFailed exFrameCtx
      exLayer 0).2.1 ⟨1, true⟩ rfl,
   (c2_error_terminality false 2 exSceneLogOff exRendererFailed exFrameCtx
      exLayer 0).2.2 ⟨1, true⟩ rfl⟩

/-- C2 counterexample: a renderer whose compilation failed (error set
recorded, failed program object stored) is NOT a no-op on subsequent
`drawLayer` calls: the call still binds the common textures, issues a draw
invocation and bumps the draw counter, refuting the claimed permanent
no-op. -/
theorem c2_counterexample :
    exRendererFailed.errors = true ∧
    GLAction.bindCommonTextures ∈
      (drawLayer false 2 exSceneLogOff exRendererFailed exFrameCtx exLayer 0).2.2 ∧
    GLAction.drawArrays 3 ∈
      (drawLayer false 2 exSceneLogOff exRendererFailed exFrameCtx exLayer 0).2.2 ∧
    (drawLayer false 2 exSceneLogOff exRendererFailed exFrameCtx
      exLayer 0).2.1.drawElements = exFrameCtx.drawElements + 1 := by
  decide

/-- C3 (amended): for every `drawLayer` call on a renderer with a stored
program, with plane index `i` within both the scene's plane count `N` and
the allocated uniform table: the plane's `active` boolean uniform is always
uploaded, with the value of
`renderFlags.sectionPlanesActivePerLayer[layerIndex*N + i]`; the position
and direction uniforms are uploaded exactly when that bit is set; and the
uploaded position is the plane's reference point rebased via the layer's
stored origin (`getPlaneRTCPos(dist, dir, origin)`) — note this origin is
the raw layer origin, not the rotated-origin-plus-position used for the
view matrix. -/
theorem c3_section_plane_uploads (compileOk : Bool) (newId : Nat)
    (scene : Scene) (r : RendererState) (fc : FrameCtx)
    (layer : DataTextureLayer) (renderPass : Int) (p : ProgramRec) (i : Nat)
    (hp : r._program = some p)
    (hi : i < scene._sectionPlanesState.sectionPlanes.length)
    (hu : i < r.uSectionPlanesLen) :
    (GLAction.uniformSectionActive i
        (if layer.model.renderFlags.sectionPlanesActivePerLayer.getD
            (layer.layerIndex * scene._sectionPlanesState.sectionPlanes.length + i)
            false
         then 1 else 0) ∈
      (drawLayer compileOk newId scene r fc layer renderPass).2.2) ∧
    (layer.model.renderFlags.sectionPlanesActivePerLayer.getD
        (layer.layerIndex * scene._sectionPlanesState.sectionPlanes.length + i)
        false = true →
      GLAction.uniformSectionPos i
          (getPlaneRTCPos
            (scene._sectionPlanesState.sectionPlanes.getD i
              ⟨vec3Zero, 0, vec3Zero⟩).dist
            (scene._sectionPlanesState.sectionPlanes.getD i
              ⟨vec3Zero, 0, vec3Zero⟩).dir
            layer._state.origin) ∈
        (drawLayer compileOk newId scene r fc layer renderPass).2.2 ∧
      GLAction.uniformSectionDir i
          (scene._sectionPlanesState.sectionPlanes.getD i
            ⟨vec3Zero, 0, vec3Zero⟩).dir ∈
        (drawLayer compileOk newId scene r fc layer renderPass).2.2) ∧
    (layer.model.renderFlags.sectionPlanesActivePerLayer.getD
        (layer.layerIndex * scene._sectionPlanesState.sectionPlanes.length + i)
        false = false →
      (∀ v, GLAction.uniformSectionPos i v ∉
        (drawLayer compileOk newId scene r fc layer renderPass).2.2) ∧
      (∀ v, GLAction.uniformSectionDir i v ∉
        (drawLayer compileOk newId scene r fc layer renderPass).2.2)) := by
  simp only [drawLayer, hp]
  have hmem := sectionUpload_mem_body_iff scene r p fc layer renderPass
  have hspec := sectionPlaneActions_spec scene layer r.uSectionPlanesLen i hi hu
  refine ⟨?_, fun hbit => ?_, fun hbit => ?_⟩
  · exact (hmem.1 _ _).mpr hspec.1
  · exact ⟨(hmem.2.1 _ _).mpr (hspec.2.1 hbit).1,
      (hmem.2.2 _ _).mpr (hspec.2.1 hbit).2⟩
  · exact ⟨fun v hv => (hspec.2.2 hbit).1 v ((hmem.2.1 _ _).mp hv),
      fun v hv => (hspec.2.2 hbit).2 v ((hmem.2.2 _ _).mp hv)⟩

/-- C3 amended witness: on the concrete one-plane scene with active bit set,
the `active` boolean (value 1) and the position rebased by the layer origin
`(1,0,0)` are uploaded. -/
theorem c3_section_plane_uploads_witness :
    GLAction.uniformSectionActive 0 1 ∈
      (drawLayer true 2 exSceneP1 exRendererOk exFrameCtx exLayer 0).2.2 ∧
    GLAction.uniformSectionPos 0 (getPlaneRTCPos 5 ⟨0, 0, 1⟩ ⟨1, 0, 0⟩) ∈
      (drawLayer true 2 exSceneP1 exRendererOk exFrameCtx exLayer 0).2.2 := by
  have h := c3_section_plane_uploads true 2 exSceneP1 exRendererOk exFrameCtx
    exLayer 0 ⟨1, false⟩ 0 rfl (by decide) (by decide)
  exact ⟨by simpa using h.1, by simpa using (h.2.1 (by decide)).1⟩

/-- C3 counterexample: with layer origin `(1,0,0)`, model position `(0,0,1)`
and identity rotation, the view matrix is rebased via the origin `(1,0,1)`
(witnessed by the uploaded RTC camera eye), while the uploaded section-plane
position is rebased via the raw layer origin `(1,0,0)`; the value rebased
via the view matrix's origin is never uploaded — refuting the claim that the
plane position is rebased via the same origin used for the view matrix. -/
theorem c3_counterexample :
    GLAction.uniformSectionPos 0 (getPlaneRTCPos 5 ⟨0, 0, 1⟩ ⟨1, 0, 0⟩) ∈
      (drawLayer true 2 exSceneP1 exRendererOk exFrameCtx exLayer 0).2.2 ∧
    (computeRTC exSceneP1.viewMatrix exSceneP1.eye exLayer.model.rotationMatrix
        exLayer._state.origin exLayer.model.position).2 =
      exSceneP1.eye - ⟨1, 0, 1⟩ ∧
    getPlaneRTCPos 5 ⟨0, 0, 1⟩ ⟨1, 0, 1⟩ ≠ getPlaneRTCPos 5 ⟨0, 0, 1⟩ ⟨1, 0, 0⟩ ∧
    GLAction.uniformSectionPos 0 (getPlaneRTCPos 5 ⟨0, 0, 1⟩ ⟨1, 0, 1⟩) ∉
      (drawLayer true 2 exSceneP1 exRendererOk exFrameCtx exLayer 0).2.2 := by
  have hdl : drawLayer true 2 exSceneP1 exRendererOk exFrameCtx exLayer 0 =
      drawLayerBody exSceneP1 exRendererOk ⟨1, false⟩ exFrameCtx exLayer 0 := rfl
  have hiff := (sectionUpload_mem_body_iff exSceneP1 exRendererOk ⟨1, false⟩
    exFrameCtx exLayer 0).2.1
  have hplane : sectionPlaneActions exSceneP1 exLayer
      exRendererOk.uSectionPlanesLen =
      [GLAction.uniformSectionActive 0 1,
       GLAction.uniformSectionPos 0 (getPlaneRTCPos 5 ⟨0, 0, 1⟩ ⟨1, 0, 0⟩),
       GLAction.uniformSectionDir 0 ⟨0, 0, 1⟩] := rfl
  refine ⟨?_, ?_, ?_, ?_⟩
  · rw [hdl]
    refine (hiff _ _).mpr ?_
    rw [hplane]
    exact List.mem_cons_of_mem _ (List.mem_cons_self _ _)
  · norm_num [computeRTC, exSceneP1, exLayer, exModel, transformPoint3,
      Mat4.applyPoint, mat4Identity, translationMat, vec3Zero,
      createRTCViewMat, Vec3.mk.injEq]
  · intro h
    simp only [getPlaneRTCPos, Vec3.scale, Vec3.sub, Vec3.mk.injEq] at h
    norm_num at h
  · intro hmem
    rw [hdl] at hmem
    have hm := (hiff _ _).mp hmem
    rw [hplane] at hm
    simp only [List.mem_cons, List.not_mem_nil, or_false] at hm
    rcases hm with h | h | h
    · cases h
    · have hv := (GLAction.uniformSectionPos.inj h).2
      simp only [getPlaneRTCPos, Vec3.scale, Vec3.sub, Vec3.mk.injEq] at hv
      norm_num at hv
    · cases h

/-- C8: a `drawLayer` call on a renderer with a stored program issues
exactly one draw invocation per index-width bucket with a positive recorded
count, in 8/16/32-bit order, each covering exactly that bucket's count, and
none for empty buckets. -/
theorem c8_bucket_dispatch (compileOk : Bool) (newId : Nat) (scene : Scene)
    (r : RendererState) (fc : FrameCtx) (layer : DataTextureLayer)
    (renderPass : Int) (p : ProgramRec) (hp : r._program = some p) :
    drawArraysCounts (drawLayer compileOk newId scene r fc layer renderPass).2.2 =
      (if 0 < layer._state.numIndices8Bits then
        [layer._state.numIndices8Bits] else []) ++
      (if 0 < layer._state.numIndices16Bits then
        [layer._state.numIndices16Bits] else []) ++
      (if 0 < layer._state.numIndices32Bits then
        [layer._state.numIndices32Bits] else []) := by
  simp only [drawLayer, hp]
  rw [drawArraysCounts_drawLayerBody, drawArraysCounts_bucketActions]

/-- C8 witness: a layer reporting buckets `300 / 0 / 90` issues exactly two
draw invocations with counts `300` and `90`. -/
theorem c8_bucket_dispatch_witness :
    drawArraysCounts
      (drawLayer true 2 exSceneLogOff exRenderer0 exFrameCtx exLayer300 0).2.2 =
      [300, 90] := by
  have h := c8_bucket_dispatch true 2 exSceneLogOff exRenderer0 exFrameCtx
    exLayer300 0 ⟨1, false⟩ rfl
  rw [h]
  decide

/-- C9: `drawLayer` binds the program (writing `frameCtx.lastProgramId`)
exactly when the frame context's last program identity differs from this
renderer's program; consequently two consecutive `drawLayer` calls on the
same renderer instance with the same frame context issue exactly one
program-bind call, not two. -/
theorem c9_rebind_avoidance (compileOk : Bool) (newId : Nat) (scene : Scene)
    (r : RendererState) (fc : FrameCtx) (layer : DataTextureLayer)
    (renderPass : Int) (p : ProgramRec) (hp : r._program = some p) :
    ((GLAction.bindProgram p.id ∈
        (drawLayer compileOk newId scene r fc layer renderPass).2.2) ↔
      fc.lastProgramId ≠ some p.id) ∧
    (fc.lastProgramId ≠ some p.id →
      bindCount
        ((drawLayer compileOk newId scene r fc layer renderPass).2.2 ++
         (drawLayer compileOk newId scene
           (drawLayer compileOk newId scene r fc layer renderPass).1
           (drawLayer compileOk newId scene r fc layer renderPass).2.1
           layer renderPass).2.2) = 1) := by
  have hstate := drawLayerBody_state scene r p fc layer renderPass
  constructor
  · simp only [drawLayer, hp]
    constructor
    · intro hm
      by_contra hc
      refine bindProgram_notMem_of_bindCount_zero _ ?_ p.id hm
      rw [bindCount_drawLayerBody, if_neg (not_not_intro hc)]
    · exact fun h => bindProgram_mem_drawLayerBody scene r p fc layer
        renderPass h
  · intro hneq
    simp only [drawLayer, hp, hstate.1, bindCount_append,
      bindCount_drawLayerBody, hstate.2.1]
    simp [hneq]

/-- C9 witness: starting from a fresh frame context, two consecutive
`drawLayer` calls on the same renderer issue exactly one program bind. -/
theorem c9_rebind_avoidance_witness :
    bindCount
      ((drawLayer true 2 exSceneLogOff exRenderer0 exFrameCtx exLayer0 0).2.2 ++
       (drawLayer true 2 exSceneLogOff
         (drawLayer true 2 exSceneLogOff exRenderer0 exFrameCtx exLayer0 0).1
         (drawLayer true 2 exSceneLogOff exRenderer0 exFrameCtx exLayer0 0).2.1
         exLayer0 0).2.2) = 1 :=
  (c9_rebind_avoidance true 2 exSceneLogOff exRenderer0 exFrameCtx exLayer0 0
    ⟨1, false⟩ rfl).2 (by decide)

/-- C10: every `drawLayer` call not aborted by the missing-program/error
guard increments `frameCtx.drawElements` by exactly one — including calls
whose bucket counts are all zero and which therefore issue no draw
invocation. -/
theorem c10_draw_counter (compileOk : Bool) (newId : Nat) (scene : Scene)
    (r : RendererState) (fc : FrameCtx) (layer : DataTextureLayer)
    (renderPass : Int)
    (h : ¬(r._program = none ∧
      (_allocate compileOk newId scene r).errors = true)) :
    (drawLayer compileOk newId scene r fc layer renderPass).2.1.drawElements =
      fc.drawElements + 1 := by
  rcases hp : r._program with _ | p
  · have herr : ¬(_allocate compileOk newId scene r).errors = true :=
      fun hc => h ⟨hp, hc⟩
    simp only [drawLayer, hp]
    rw [if_neg herr]
    cases hck : compileOk
    · exact absurd (by simp [_allocate, hck]) herr
    · simp only [_allocate, hck, if_pos]
      exact (drawLayerBody_state scene _ _ fc layer renderPass).2.2
  · simp only [drawLayer, hp]
    exact (drawLayerBody_state scene r p fc layer renderPass).2.2

/-- C10 witness: a call with all three bucket counts zero issues no draw
invocation yet still increments the counter by one. -/
theorem c10_draw_counter_witness :
    (drawLayer true 2 exSceneLogOff exRenderer0 exFrameCtx
      exLayer0 0).2.1.drawElements = exFrameCtx.drawElements + 1 ∧
    drawArraysCounts
      (drawLayer true 2 exSceneLogOff exRenderer0 exFrameCtx exLayer0 0).2.2 =
      [] :=
  ⟨c10_draw_counter true 2 exSceneLogOff exRenderer0 exFrameCtx exLayer0 0
    (by decide), by decide⟩
